import Mathlib

/-!
Verification of `process_icon.py` (SharpGlass): a single-pass tool that
converts a source image into a macOS-style icon (rounded-square mask,
drop shadow, 1024x1024 PNG output).

The script is shallowly embedded below.  Images are modelled as a mode
string, dimensions, and a total pixel function; PIL geometry (the
rounded-rectangle fill region and the `ImageOps.fit` crop box) is
modelled over the rationals, mirroring Python's real arithmetic.
-/

/-- A four-channel pixel, each channel in 0..255 (PIL RGBA). -/
structure RGBA where
  r : Nat
  g : Nat
  b : Nat
  a : Nat
deriving DecidableEq, Repr

/-- A decoded multi-channel PIL image: mode tag, dimensions, pixel map. -/
structure Image where
  mode : String
  width : Nat
  height : Nat
  pix : Nat → Nat → RGBA

/-- A single-channel (mode `L`) PIL image, as used for the alpha mask. -/
structure GrayImage where
  width : Nat
  height : Nat
  pix : Nat → Nat → Nat

/-- `CANVAS_SIZE = 1024` from the source. -/
def CANVAS_SIZE : Nat := 1024

/-- `SHAPE_SIZE = 824` from the source. -/
def SHAPE_SIZE : Nat := 824

/-- `PADDING = (CANVAS_SIZE - SHAPE_SIZE) // 2` from the source. -/
def PADDING : Nat := (CANVAS_SIZE - SHAPE_SIZE) / 2

/-- `radius = SHAPE_SIZE * 0.22` from the source (rational model of the float). -/
def maskRadius : ℚ := (SHAPE_SIZE : ℚ) * 22 / 100

/-- `shadow_size = int(SHAPE_SIZE * 0.98)` from the source.  Note: the
source computes this value but never uses it afterwards. -/
def shadow_size : Int := ⌊(SHAPE_SIZE : ℚ) * 98 / 100⌋

/-- `shadow_offset_y = 10` from the source. -/
def shadow_offset_y : ℚ := 10

/-- Membership of a point in the closed disc of radius `rad` about `(cx, cy)`. -/
def inDisc (cx cy rad px py : ℚ) : Prop :=
  (px - cx) ^ 2 + (py - cy) ^ 2 ≤ rad ^ 2

instance (cx cy rad px py : ℚ) : Decidable (inDisc cx cy rad px py) := by
  unfold inDisc; infer_instance

/-- Models the region filled by PIL `ImageDraw.rounded_rectangle` with
bounding box `(x0, y0)`-`(x1, y1)` and corner radius `rad`: the bounding
box minus the four corner squares, plus the four quarter discs. -/
def roundedRectContains (x0 y0 x1 y1 rad px py : ℚ) : Prop :=
  x0 ≤ px ∧ px ≤ x1 ∧ y0 ≤ py ∧ py ≤ y1 ∧
  ((x0 + rad ≤ px ∧ px ≤ x1 - rad) ∨
   (y0 + rad ≤ py ∧ py ≤ y1 - rad) ∨
   inDisc (x0 + rad) (y0 + rad) rad px py ∨
   inDisc (x1 - rad) (y0 + rad) rad px py ∨
   inDisc (x0 + rad) (y1 - rad) rad px py ∨
   inDisc (x1 - rad) (y1 - rad) rad px py)

instance (x0 y0 x1 y1 rad px py : ℚ) :
    Decidable (roundedRectContains x0 y0 x1 y1 rad px py) := by
  unfold roundedRectContains; infer_instance

/-- The mask pixel value: `draw.rounded_rectangle([(0, 0), (SHAPE_SIZE,
SHAPE_SIZE)], radius=radius, fill=255)` on a background of 0. -/
def maskPix (x y : Nat) : Nat :=
  if roundedRectContains 0 0 (SHAPE_SIZE : ℚ) (SHAPE_SIZE : ℚ) maskRadius (x : ℚ) (y : ℚ)
  then 255 else 0

/-- `mask = Image.new('L', (SHAPE_SIZE, SHAPE_SIZE), 0)` with the rounded
rectangle drawn onto it. -/
def maskImage : GrayImage :=
  { width := SHAPE_SIZE, height := SHAPE_SIZE, pix := maskPix }

/-- The crop window computed by PIL `ImageOps.fit` (with its default
`bleed = 0`): left, top, right, bottom, in source-image coordinates. -/
structure CropBox where
  left : ℚ
  top : ℚ
  right : ℚ
  bottom : ℚ

/-- Translation of the crop-box computation inside PIL `ImageOps.fit`
(bleed fixed to its default 0, as at the call site): compare the source
aspect ratio with the target aspect ratio, scale the matching dimension,
and place the crop window according to `centering = (cx, cy)`. -/
def fitCrop (w h tw th cx cy : ℚ) : CropBox :=
  let live_size_ratio := w / h
  let output_ratio := tw / th
  if output_ratio ≤ live_size_ratio then
    let crop_width := h * output_ratio
    let crop_height := h
    let crop_left := (w - crop_width) * cx
    let crop_top := (h - crop_height) * cy
    ⟨crop_left, crop_top, crop_left + crop_width, crop_top + crop_height⟩
  else
    let crop_width := w
    let crop_height := w / output_ratio
    let crop_left := (w - crop_width) * cx
    let crop_top := (h - crop_height) * cy
    ⟨crop_left, crop_top, crop_left + crop_width, crop_top + crop_height⟩

/-- The crop box for the call `ImageOps.fit(img, (SHAPE_SIZE, SHAPE_SIZE),
centering=(0.5, 0.5))` on a `w` by `h` source. -/
def contentCrop (w h : ℚ) : CropBox :=
  fitCrop w h (SHAPE_SIZE : ℚ) (SHAPE_SIZE : ℚ) (1 / 2) (1 / 2)

/-- `ImageOps.fit`: resize to the target size from the crop window.  The
output geometry (mode, dimensions, crop box) follows PIL; the resampling
kernel (bicubic in PIL) is modelled as point sampling, which none of the
proved properties depend on. -/
def fit (i : Image) (tw th : Nat) (cx cy : ℚ) : Image :=
  let box := fitCrop (i.width : ℚ) (i.height : ℚ) (tw : ℚ) (th : ℚ) cx cy
  { mode := i.mode, width := tw, height := th,
    pix := fun x y =>
      (i.pix
        (⌊box.left + (box.right - box.left) * (x : ℚ) / (tw : ℚ)⌋.toNat)
        (⌊box.top + (box.bottom - box.top) * (y : ℚ) / (th : ℚ)⌋.toNat)) }

/-- `img.convert("RGBA")`: mode becomes RGBA, dimensions unchanged. -/
def convertRGBA (i : Image) : Image :=
  { i with mode := "RGBA" }

/-- `content.putalpha(mask)`: replace the alpha band with the mask,
leaving the colour bands untouched (PIL `Image.putalpha` with an `L`
image of the same size). -/
def putalpha (i : Image) (m : GrayImage) : Image :=
  { i with pix := fun x y => { i.pix x y with a := m.pix x y } }

/-- `Image.new('RGBA', (n, n), c)`: a constant image. -/
def newRGBA (w h : Nat) (c : RGBA) : Image :=
  { mode := "RGBA", width := w, height := h, pix := fun _ _ => c }

/-- The shadow layer before blurring: a transparent CANVAS_SIZE canvas
with `shadow_draw.rounded_rectangle(shadow_rect, radius=radius,
fill=(0,0,0,160))`, where `shadow_rect` runs from `(PADDING, PADDING +
shadow_offset_y)` to `(PADDING + SHAPE_SIZE, PADDING + SHAPE_SIZE +
shadow_offset_y)`. -/
def shadowBase : Image :=
  { mode := "RGBA", width := CANVAS_SIZE, height := CANVAS_SIZE,
    pix := fun x y =>
      if roundedRectContains (PADDING : ℚ) ((PADDING : ℚ) + shadow_offset_y)
          ((PADDING : ℚ) + (SHAPE_SIZE : ℚ))
          ((PADDING : ℚ) + (SHAPE_SIZE : ℚ) + shadow_offset_y)
          maskRadius (x : ℚ) (y : ℚ)
      then ⟨0, 0, 0, 160⟩ else ⟨0, 0, 0, 0⟩ }

/-- Coordinate clamped to `0 .. n - 1`, for convolution at the border. -/
def clampCoord (n : Nat) (i : Int) : Nat :=
  (max 0 (min i ((n : Int) - 1))).toNat

/-- The window offsets `-r .. r` of a blur kernel. -/
def windowOffsets (r : Nat) : List Int :=
  (List.range (2 * r + 1)).map (fun k => (k : Int) - (r : Int))

/-- One channel of the blurred pixel: the normalized sum of the channel
over the `(2r+1) x (2r+1)` window, with edge clamping. -/
def blurChannel (r : Nat) (i : Image) (f : RGBA → Nat) (x y : Nat) : Nat :=
  let offs := windowOffsets r
  (offs.foldl (fun acc dy =>
    acc + offs.foldl (fun acc2 dx =>
      acc2 + f (i.pix (clampCoord i.width ((x : Int) + dx))
                      (clampCoord i.height ((y : Int) + dy)))) 0) 0) /
  ((2 * r + 1) * (2 * r + 1))

/-- `shadow.filter(ImageFilter.GaussianBlur(radius=15))`.  PIL implements
Gaussian blur as iterated box convolutions; it is modelled here as one
normalized box convolution.  The proved properties use only that the
filter is a deterministic, size- and mode-preserving transformation. -/
def gaussianBlur (r : Nat) (i : Image) : Image :=
  { i with pix := fun x y =>
      ⟨blurChannel r i (fun c => c.r) x y,
       blurChannel r i (fun c => c.g) x y,
       blurChannel r i (fun c => c.b) x y,
       blurChannel r i (fun c => c.a) x y⟩ }

/-- Straight-alpha source-over blend of one pixel, channels scaled to
0..255 (models PIL `alpha_composite` pixel arithmetic). -/
def overPix (src dst : RGBA) : RGBA :=
  let sa : ℚ := (src.a : ℚ) / 255
  let da : ℚ := (dst.a : ℚ) / 255
  let oa : ℚ := sa + da * (1 - sa)
  let ch : Nat → Nat → Nat := fun sc dc =>
    if oa = 0 then 0
    else ⌊((sc : ℚ) * sa + (dc : ℚ) * da * (1 - sa)) / oa⌋.toNat
  ⟨ch src.r dst.r, ch src.g dst.g, ch src.b dst.b, ⌊oa * 255⌋.toNat⟩

/-- `dest.alpha_composite(src, (dx, dy))`: blend `src` over `dest` at the
given offset; `dest` keeps its mode and dimensions. -/
def alphaComposite (dest src : Image) (dx dy : Nat) : Image :=
  { dest with pix := fun x y =>
      if dx ≤ x ∧ x < dx + src.width ∧ dy ≤ y ∧ y < dy + src.height then
        overPix (src.pix (x - dx) (y - dy)) (dest.pix x y)
      else dest.pix x y }

/-- The file produced by `final_canvas.save(output_path, "PNG")`: the
destination path, the explicitly forced encoder format, and the encoded
image. -/
structure SavedFile where
  path : String
  format : String
  image : Image

/-- The content layer before masking: `ImageOps.fit(img, (SHAPE_SIZE,
SHAPE_SIZE), centering=(0.5, 0.5))` applied to the RGBA-converted
source. -/
def contentLayer (img : Image) : Image :=
  fit (convertRGBA img) SHAPE_SIZE SHAPE_SIZE (1 / 2) (1 / 2)

/-- The content layer after `content.putalpha(mask)`. -/
def maskedContent (img : Image) : Image :=
  putalpha (contentLayer img) maskImage

/-- The body of `create_macos_icon` (the `try` block up to the save):
mask, fit, putalpha, shadow, blur, composite, then save as "PNG". -/
def create_macos_icon_core (img : Image) (output_path : String) : SavedFile :=
  let content := maskedContent img
  let shadow := gaussianBlur 15 shadowBase
  let final_canvas := newRGBA CANVAS_SIZE CANVAS_SIZE ⟨0, 0, 0, 0⟩
  let final_canvas := alphaComposite final_canvas shadow 0 0
  let final_canvas := alphaComposite final_canvas content PADDING PADDING
  ⟨output_path, "PNG", final_canvas⟩

/-- An observable side effect of one run. -/
inductive Effect where
  | printMsg : String → Effect
  | writeOutput : SavedFile → Effect

/-- The observable outcome of one run: the side effects in order, and the
process exit code (0 on the fall-through success path). -/
structure RunResult where
  effects : List Effect
  exitCode : Nat

/-- The `try`/`except` shell of `create_macos_icon`: the body result is
either the saved file (every step succeeded) or the message of the first
exception raised in steps 1-8.  On success the file is written and the
success line printed; on failure the error line is printed and
`sys.exit(1)` runs. -/
def create_macos_icon (body : Except String SavedFile) : RunResult :=
  match body with
  | Except.ok s =>
      ⟨[Effect.writeOutput s,
        Effect.printMsg ("Created macOS-compliant icon at " ++ s.path)], 0⟩
  | Except.error e =>
      ⟨[Effect.printMsg ("Error processing image: " ++ e)], 1⟩

/-- Ambient process state a run could in principle observe: a clock and a
randomness source.  The script consults neither. -/
structure Env where
  clock : Nat
  randomSeed : Nat

/-- A full run of the tool on a decode result (`Except.error` models an
exception while opening/decoding the input) under ambient state `env`. -/
def run_tool (env : Env) (input : Except String Image) (output_path : String) :
    RunResult :=
  create_macos_icon (input.map (fun img => create_macos_icon_core img output_path))

/-- The outcome of the `__main__` block: either the usage message plus an
exit code, before any file access, or entry into `create_macos_icon` with
the two path arguments. -/
inductive CliOutcome where
  | usage : String → Nat → CliOutcome
  | build : String → String → CliOutcome
deriving DecidableEq

/-- The `__main__` block: `if len(sys.argv) < 3` print usage and
`sys.exit(1)`, else call `create_macos_icon(sys.argv[1], sys.argv[2])`.
`argv` is the full `sys.argv`, program name included. -/
def mainEntry (argv : List String) : CliOutcome :=
  if argv.length < 3 then
    CliOutcome.usage "Usage: python3 process_icon.py <input> <output>" 1
  else
    CliOutcome.build (argv.getD 1 "") (argv.getD 2 "")

/-- Claim C1, evaluated on the code: the source computes `shadow_size =
int(SHAPE_SIZE * 0.98) = 807` but never uses it — the drawn shadow
rectangle spans the full `SHAPE_SIZE = 824` horizontally, and the shadow
pixel at `(920, 500)` is filled even though `920` lies beyond
`PADDING + shadow_size = 907`, the right edge the claim asserts. -/
theorem shadow_rect_drawn_at_full_shape_size :
    shadow_size = 807 ∧
    ((PADDING : ℚ) + (SHAPE_SIZE : ℚ)) - (PADDING : ℚ) = 824 ∧
    (PADDING : Int) + shadow_size < 920 ∧
    shadowBase.pix 920 500 = ⟨0, 0, 0, 160⟩ := by
  refine ⟨?_, ?_, ?_, ?_⟩
  · norm_num [shadow_size, SHAPE_SIZE]
  · norm_num [PADDING, SHAPE_SIZE, CANVAS_SIZE]
  · norm_num [shadow_size, PADDING, SHAPE_SIZE, CANVAS_SIZE]
  · norm_num [shadowBase, roundedRectContains, inDisc, maskRadius,
      shadow_offset_y, PADDING, SHAPE_SIZE, CANVAS_SIZE]

/-- Claim C2: for every decoded input image (any dimensions, any mode)
and any output path, the saved result of the processing body is a
1024 x 1024 image in RGBA mode, encoded as PNG. -/
theorem output_is_1024_rgba_png (img : Image) (output_path : String) :
    (create_macos_icon_core img output_path).image.width = 1024 ∧
    (create_macos_icon_core img output_path).image.height = 1024 ∧
    (create_macos_icon_core img output_path).image.mode = "RGBA" ∧
    (create_macos_icon_core img output_path).format = "PNG" :=
  ⟨rfl, rfl, rfl, rfl⟩

/-- Claim C3: when any step of the processing body raises an exception
with message `e`, the run prints exactly `Error processing image: e` and
exits with code 1, which is non-zero. -/
theorem exception_prints_error_and_exits_nonzero (e : String) :
    (create_macos_icon (Except.error e)).effects =
      [Effect.printMsg ("Error processing image: " ++ e)] ∧
    (create_macos_icon (Except.error e)).exitCode = 1 ∧
    (create_macos_icon (Except.error e)).exitCode ≠ 0 :=
  ⟨rfl, rfl, Nat.one_ne_zero⟩

/-- Claim C4: a run whose body fails performs no output write at all,
and a successful run writes exactly the fully built saved file, as its
first and only write, before the success message — the save is the last
step of the transformation. -/
theorem no_output_write_on_failure :
    (∀ (e : String) (f : SavedFile),
        Effect.writeOutput f ∉ (create_macos_icon (Except.error e)).effects) ∧
    (∀ s : SavedFile,
        (create_macos_icon (Except.ok s)).effects =
          [Effect.writeOutput s,
           Effect.printMsg ("Created macOS-compliant icon at " ++ s.path)]) := by
  constructor
  · intro e f h
    simp [create_macos_icon] at h
  · intro s
    rfl

/-- Claim C5: the run result — every printed message, the written file
(bytes included, as the encoded image), and the exit code — does not
depend on the ambient environment (clock, randomness): two runs on the
same input and output path are identical. -/
theorem run_tool_deterministic (env1 env2 : Env)
    (input : Except String Image) (output_path : String) :
    run_tool env1 input output_path = run_tool env2 input output_path :=
  rfl

/-- Claim C6: the mask is 0 at the geometric corner pixel `(0, 0)` and
255 at the center pixel of the mask. -/
theorem mask_corner_transparent_center_opaque :
    maskImage.pix 0 0 = 0 ∧
    maskImage.pix (maskImage.width / 2) (maskImage.height / 2) = 255 := by
  constructor
  · norm_num [maskImage, maskPix, roundedRectContains, inDisc, maskRadius, SHAPE_SIZE]
  · norm_num [maskImage, maskPix, roundedRectContains, inDisc, maskRadius, SHAPE_SIZE]

/-- Claim C7: for every non-square input with positive dimensions, the
crop window of the fit step is centred — the amount cropped on the left
equals the amount cropped on the right, and the amount cropped on top
equals the amount cropped on the bottom. -/
theorem fit_crop_symmetric (w h : ℚ) (hw : 0 < w) (hh : 0 < h) (hne : w ≠ h) :
    (contentCrop w h).left - 0 = w - (contentCrop w h).right ∧
    (contentCrop w h).top - 0 = h - (contentCrop w h).bottom := by
  unfold contentCrop fitCrop
  dsimp only
  split_ifs <;> exact ⟨by ring, by ring⟩

/-- Witness for C7 at the concrete non-square input 500 x 300. -/
theorem fit_crop_symmetric_witness :
    (contentCrop 500 300).left - 0 = 500 - (contentCrop 500 300).right ∧
    (contentCrop 500 300).top - 0 = 300 - (contentCrop 500 300).bottom :=
  fit_crop_symmetric 500 300 (by norm_num) (by norm_num) (by norm_num)

/-- Claim C8: with fewer than two arguments after the program name
(`len(sys.argv) < 3`), the main block prints the usage line and exits
with code 1; `create_macos_icon` is never entered, so no file is
touched. -/
theorem usage_on_too_few_args (argv : List String) (h : argv.length < 3) :
    mainEntry argv =
      CliOutcome.usage "Usage: python3 process_icon.py <input> <output>" 1 := by
  unfold mainEntry
  rw [if_pos h]

/-- Witness for C8 at a concrete one-argument command line. -/
theorem usage_on_too_few_args_witness :
    mainEntry ["process_icon.py", "input.png"] =
      CliOutcome.usage "Usage: python3 process_icon.py <input> <output>" 1 :=
  usage_on_too_few_args ["process_icon.py", "input.png"] (by decide)

/-- Claim C9: after `putalpha`, every pixel of the content layer keeps
its R, G and B channels and has its alpha replaced by the mask value at
that pixel. -/
theorem putalpha_replaces_alpha_keeps_rgb (img : Image) (x y : Nat) :
    ((maskedContent img).pix x y).r = ((contentLayer img).pix x y).r ∧
    ((maskedContent img).pix x y).g = ((contentLayer img).pix x y).g ∧
    ((maskedContent img).pix x y).b = ((contentLayer img).pix x y).b ∧
    ((maskedContent img).pix x y).a = maskImage.pix x y :=
  ⟨rfl, rfl, rfl, rfl⟩

/-- Claim C10: the save call forces the PNG encoder explicitly, so even
an output path ending in `.jpg` receives a PNG-encoded file at that
path. -/
theorem png_encoder_forced_regardless_of_extension (img : Image) (stem : String) :
    (create_macos_icon_core img (stem ++ ".jpg")).format = "PNG" ∧
    (create_macos_icon_core img (stem ++ ".jpg")).path = stem ++ ".jpg" :=
  ⟨rfl, rfl⟩
